import Mathlib

/-!
Verification of the pdfsmith backend-selection and configuration-resolution
subsystem, shallowly embedded from `src/pdfsmith/config.py`,
`src/pdfsmith/backends/registry.py` and `src/pdfsmith/api.py`.

Python dictionaries are modelled observationally as association lists where
`lookupKey` finds the first binding; `d1.update(d2)` (and `{**d1, **d2}`)
becomes `d2 ++ d1`, so that the later layer's binding wins on lookup exactly
as in Python.  The process environment, the config-file system and the
module loading machinery are passed in explicitly as functions.
-/

namespace Pdfsmith

/-- Python values as they occur in backend option mappings
(booleans, strings, ints, None, and string lists such as `ocr_languages`). -/
inductive PyVal : Type where
  | none : PyVal
  | bool : Bool → PyVal
  | str : String → PyVal
  | int : Int → PyVal
  | list : List String → PyVal
deriving DecidableEq, Repr

/-- Python truthiness `bool(val)` for the values of `PyVal`. -/
def pyTruthy : PyVal → Bool
  | PyVal.none => false
  | PyVal.bool b => b
  | PyVal.str s => !(s == "")
  | PyVal.int n => !(n == 0)
  | PyVal.list vs => !vs.isEmpty

/-- Dictionary lookup on an association list: the first binding wins,
modelling Python `d.get(key)` on our observational dict encoding. -/
def lookupKey {β : Type} (key : String) : List (String × β) → Option β
  | [] => Option.none
  | (k, v) :: rest => if key = k then some v else lookupKey key rest

/-- Layered-overwrite combinator: the first (later-applied) layer's value
wins, falling back to the second. -/
def layerOr {β : Type} (a b : Option β) : Option β :=
  match a with
  | some v => some v
  | Option.none => b

@[simp] theorem layerOr_none_left {β : Type} (b : Option β) : layerOr Option.none b = b := rfl

@[simp] theorem layerOr_some_left {β : Type} (v : β) (b : Option β) :
    layerOr (some v) b = some v := rfl

@[simp] theorem layerOr_none_right {β : Type} (a : Option β) : layerOr a Option.none = a := by
  cases a <;> rfl

@[simp] theorem lookupKey_nil {β : Type} (key : String) :
    lookupKey key ([] : List (String × β)) = Option.none := rfl

@[simp] theorem lookupKey_append {β : Type} (key : String) (a b : List (String × β)) :
    lookupKey key (a ++ b) = layerOr (lookupKey key a) (lookupKey key b) := by
  induction a with
  | nil => simp
  | cons p rest ih =>
    by_cases h : key = p.1
    · simp [lookupKey, h]
    · simp [lookupKey, h, ih]

/-- An entry found by `lookupKey` is an entry of the list. -/
theorem lookupKey_mem {β : Type} {key : String} {l : List (String × β)} {v : β}
    (h : lookupKey key l = some v) : (key, v) ∈ l := by
  induction l with
  | nil => simp [lookupKey] at h
  | cons p rest ih =>
    obtain ⟨k, w⟩ := p
    by_cases hk : key = k
    · simp only [lookupKey, if_pos hk, Option.some.injEq] at h
      subst hk
      subst h
      exact List.mem_cons_self _ _
    · simp only [lookupKey, if_neg hk] at h
      exact List.mem_cons_of_mem _ (ih h)

/-- `BackendConfig` from config.py lines 24-52: configuration container
for a backend. -/
structure BackendConfig : Type where
  backend_name : String
  options : List (String × PyVal)
  source : String
deriving DecidableEq, Repr

/-- `BackendConfig.get_bool` from config.py lines 36-45.  `options.get(key)`
yields Python `None` both for a missing key and for a stored `None`, and both
return the default; a stored `bool` is returned as is; a stored string is
compared case-insensitively against the truthy set; anything else goes
through Python truthiness `bool(val)`. -/
def BackendConfig.get_bool (c : BackendConfig) (key : String) (default : Bool) : Bool :=
  match lookupKey key c.options with
  | Option.none => default
  | some v =>
    match v with
    | PyVal.none => default
    | PyVal.bool b => b
    | PyVal.str s => ["true", "1", "yes", "on"].contains s.toLower
    | v => pyTruthy v

/-- The config-file system visible to `_find_config_file`: for a backend
name, the parsed content of `.pdfsmith/<name>.yaml` if that file exists, the
parsed content of `~/.config/pdfsmith/<name>.yaml` if that file exists, and
the home directory (used only to render the user-config path).  File content
is given already parsed, as `_load_yaml_config` returns it (config.py lines
70-73: `yaml.safe_load(f) or {}`, so an empty or comment-only file is the
empty mapping). -/
structure ConfigFS : Type where
  localConfig : String → Option (List (String × PyVal))
  userConfig : String → Option (List (String × PyVal))
  home : String

/-- The process environment, as consulted by `os.environ.get`. -/
abbrev EnvMap := String → Option String

/-- `_find_config_file` from config.py lines 55-67: project-local config
first, then user config; returns the path together with the (parsed) file
content, or nothing when neither file exists. -/
def _find_config_file (fs : ConfigFS) (backend_name : String) :
    Option (String × List (String × PyVal)) :=
  match fs.localConfig backend_name with
  | some content => some (".pdfsmith/" ++ backend_name ++ ".yaml", content)
  | Option.none =>
    match fs.userConfig backend_name with
    | some content =>
        some (fs.home ++ "/.config/pdfsmith/" ++ backend_name ++ ".yaml", content)
    | Option.none => Option.none

/-- `_load_env_config` from config.py lines 76-99: for each known option,
try `PDFSMITH_<BACKEND>_<OPTION>` then `<BACKEND>_<OPTION>`; the first hit
is stored (as a raw string) and the remaining spelling is not consulted. -/
def _load_env_config (backend_name : String) (known_options : List String)
    (env : EnvMap) : List (String × PyVal) :=
  let backend_upper := (backend_name.toUpper).replace "-" "_"
  known_options.filterMap (fun option =>
    let option_upper := option.toUpper
    match env ("PDFSMITH_" ++ backend_upper ++ "_" ++ option_upper) with
    | some val => some (option, PyVal.str val)
    | Option.none =>
      match env (backend_upper ++ "_" ++ option_upper) with
      | some val => some (option, PyVal.str val)
      | Option.none => Option.none)

/-- `load_backend_config` from config.py lines 102-144: start from an empty
mapping and `source = "defaults"`; if a config file is found, merge its
content and set `source` to the file path (unconditionally, even when the
file holds zero keys); merge environment options and set
`source = "environment"` only when at least one was found; merge explicit
options and set `source = "explicit"` only when the argument is a non-empty
mapping (`if explicit_options:`). -/
def load_backend_config (fs : ConfigFS) (env : EnvMap) (backend_name : String)
    (explicit_options : Option (List (String × PyVal)))
    (known_options : Option (List String)) : BackendConfig :=
  let known := known_options.getD []
  let step1 : List (String × PyVal) × String :=
    match _find_config_file fs backend_name with
    | some pc => (pc.2, pc.1)
    | Option.none => ([], "defaults")
  let env_options := _load_env_config backend_name known env
  let step2 : List (String × PyVal) × String :=
    if env_options.isEmpty then step1
    else (env_options ++ step1.1, "environment")
  let step3 : List (String × PyVal) × String :=
    match explicit_options with
    | some eo => if eo.isEmpty then step2 else (eo ++ step2.1, "explicit")
    | Option.none => step2
  ⟨backend_name, step3.1, step3.2⟩

/-- `BACKEND_DEFAULTS` from config.py lines 148-164: the static table of
built-in defaults, keyed by backend name. -/
def BACKEND_DEFAULTS : List (String × List (String × PyVal)) :=
  [("docling",
    [("do_ocr", PyVal.bool false),
     ("do_table_structure", PyVal.bool true),
     ("num_threads", PyVal.int 4),
     ("device", PyVal.str "auto"),
     ("ocr_languages", PyVal.list ["en"])]),
   ("marker",
    [("use_llm", PyVal.bool false),
     ("batch_size", PyVal.int 4)]),
   ("unstructured",
    [("strategy", PyVal.str "fast"),
     ("include_page_breaks", PyVal.bool true)])]

/-- `get_backend_defaults` from config.py lines 167-169: the defaults for a
backend, or the empty mapping when none are registered. -/
def get_backend_defaults (backend_name : String) : List (String × PyVal) :=
  (lookupKey backend_name BACKEND_DEFAULTS).getD []

/-- The configuration-resolution pipeline of `DoclingBackend.__init__`
(docling_backend.py lines 122-127), generalized over the backend name:
`defaults = get_backend_defaults(name)`,
`config = load_backend_config(name, explicit_options, known)`,
`self._config = {**defaults, **config.options}` — in our encoding the
loaded options are placed in front of the defaults so that they win on
lookup, exactly as the later keyword expansion wins in Python. -/
def resolve_config (fs : ConfigFS) (env : EnvMap) (backend_name : String)
    (explicit_options : Option (List (String × PyVal)))
    (known_options : Option (List String)) : List (String × PyVal) :=
  let defaults := get_backend_defaults backend_name
  let config := load_backend_config fs env backend_name explicit_options known_options
  config.options ++ defaults

/-- The file layer of the merge: the content of the found config file, or
the empty mapping when no file exists. -/
def file_layer (fs : ConfigFS) (backend_name : String) : List (String × PyVal) :=
  match _find_config_file fs backend_name with
  | some pc => pc.2
  | Option.none => []

/-- The explicit layer of the merge: the explicit options, or the empty
mapping when none were passed. -/
def explicit_layer (explicit_options : Option (List (String × PyVal))) :
    List (String × PyVal) :=
  explicit_options.getD []

theorem load_backend_config_options (fs : ConfigFS) (env : EnvMap)
    (backend_name : String) (explicit_options : Option (List (String × PyVal)))
    (known_options : Option (List String)) (key : String) :
    lookupKey key (load_backend_config fs env backend_name explicit_options known_options).options =
      layerOr (lookupKey key (explicit_layer explicit_options))
        (layerOr (lookupKey key (_load_env_config backend_name (known_options.getD []) env))
          (lookupKey key (file_layer fs backend_name))) := by
  simp only [load_backend_config, file_layer, explicit_layer]
  cases hf : _find_config_file fs backend_name with
  | none =>
    by_cases he : (_load_env_config backend_name (known_options.getD []) env).isEmpty
    · rw [List.isEmpty_iff] at he
      cases explicit_options with
      | none => simp [he]
      | some eo =>
        by_cases heo : eo.isEmpty
        · rw [List.isEmpty_iff] at heo
          simp [he, heo]
        · simp [he, heo]
    · cases explicit_options with
      | none => simp [he]
      | some eo =>
        by_cases heo : eo.isEmpty
        · rw [List.isEmpty_iff] at heo
          simp [he, heo]
        · simp [he, heo]
  | some pc =>
    by_cases he : (_load_env_config backend_name (known_options.getD []) env).isEmpty
    · rw [List.isEmpty_iff] at he
      cases explicit_options with
      | none => simp [he]
      | some eo =>
        by_cases heo : eo.isEmpty
        · rw [List.isEmpty_iff] at heo
          simp [he, heo]
        · simp [he, heo]
    · cases explicit_options with
      | none => simp [he]
      | some eo =>
        by_cases heo : eo.isEmpty
        · rw [List.isEmpty_iff] at heo
          simp [he, heo]
        · simp [he, heo]

/-- C1: for every backend name, the resolved options of the
defaults-then-config pipeline (the `DoclingBackend.__init__` pattern over
`load_backend_config`) are, key-wise, the explicit layer overlaid on the
environment layer overlaid on the file layer overlaid on the built-in
defaults table (empty when the backend has none registered); each overlay is
a full key-wise overwrite where the later layer wins, and in particular a
default key not overridden by any later layer is still present. -/
theorem resolve_config_layered (fs : ConfigFS) (env : EnvMap)
    (backend_name : String) (explicit_options : Option (List (String × PyVal)))
    (known_options : Option (List String)) (key : String) :
    lookupKey key (resolve_config fs env backend_name explicit_options known_options) =
      layerOr (lookupKey key (explicit_layer explicit_options))
        (layerOr (lookupKey key (_load_env_config backend_name (known_options.getD []) env))
          (layerOr (lookupKey key (file_layer fs backend_name))
            (lookupKey key (get_backend_defaults backend_name)))) := by
  simp only [resolve_config]
  rw [lookupKey_append, load_backend_config_options]
  cases lookupKey key (explicit_layer explicit_options) with
  | none =>
    cases lookupKey key (_load_env_config backend_name (known_options.getD []) env) with
    | none => simp [layerOr]
    | some v => simp [layerOr]
  | some v => simp [layerOr]

/-- C6 (amended): characterization of the provenance tag computed by
`load_backend_config`: `source` is `"explicit"` when the explicit options
are a non-empty mapping, else `"environment"` when the environment layer
found at least one variable, else the path of the config file whenever one
was found — even when that file yields zero keys — and `"defaults"` only
when no config file exists. -/
theorem load_backend_config_source (fs : ConfigFS) (env : EnvMap) (backend_name : String)
    (explicit_options : Option (List (String × PyVal)))
    (known_options : Option (List String)) :
    (load_backend_config fs env backend_name explicit_options known_options).source =
      if (explicit_layer explicit_options).isEmpty = false then "explicit"
      else if (_load_env_config backend_name (known_options.getD []) env).isEmpty = false then
        "environment"
      else
        match _find_config_file fs backend_name with
        | some pc => pc.1
        | Option.none => "defaults" := by
  simp only [load_backend_config, explicit_layer]
  cases hf : _find_config_file fs backend_name with
  | none =>
    by_cases he : (_load_env_config backend_name (known_options.getD []) env).isEmpty
    · cases explicit_options with
      | none => simp [he]
      | some eo =>
        by_cases heo : eo.isEmpty
        · simp [he, heo]
        · simp [he, heo]
    · cases explicit_options with
      | none => simp [he]
      | some eo =>
        by_cases heo : eo.isEmpty
        · simp [he, heo]
        · simp [he, heo]
  | some pc =>
    by_cases he : (_load_env_config backend_name (known_options.getD []) env).isEmpty
    · cases explicit_options with
      | none => simp [he]
      | some eo =>
        by_cases heo : eo.isEmpty
        · simp [he, heo]
        · simp [he, heo]
    · cases explicit_options with
      | none => simp [he]
      | some eo =>
        by_cases heo : eo.isEmpty
        · simp [he, heo]
        · simp [he, heo]

/-- A file system in which `.pdfsmith/<backend>.yaml` exists for every
backend but parses to the empty mapping (an empty or comment-only YAML
file), and no user config exists. -/
def fsEmptyLocal : ConfigFS := ⟨fun _ => some [], fun _ => Option.none, "/root"⟩

/-- An empty process environment. -/
def envEmpty : EnvMap := fun _ => Option.none

/-- C6 (counterexample): with a project-local `docling.yaml` that exists
but yields an empty mapping, no environment variables and no explicit
options, every layer contributes zero keys, yet `source` is the file path
rather than being left at `"defaults"` as the claim requires. -/
theorem config_source_empty_file_counterexample :
    (load_backend_config fsEmptyLocal envEmpty "docling" Option.none Option.none).options = [] ∧
    (load_backend_config fsEmptyLocal envEmpty "docling" Option.none Option.none).source =
      ".pdfsmith/docling.yaml" ∧
    (load_backend_config fsEmptyLocal envEmpty "docling" Option.none Option.none).source ≠
      "defaults" := by
  refine ⟨rfl, by decide, by decide⟩

/-- C9 (amended): full characterization of boolean typed access.  A stored
literal boolean is returned as is; a stored string is true exactly when its
lower-casing is one of `true`, `1`, `yes`, `on`; a stored integer is true
exactly when it is non-zero and a stored list exactly when it is non-empty
(Python `bool(val)` truthiness, not constantly false); a missing key or a
stored `None` returns the caller-supplied default. -/
theorem get_bool_coercion (c : BackendConfig) (key : String) (default : Bool) :
    (∀ b, lookupKey key c.options = some (PyVal.bool b) → c.get_bool key default = b) ∧
    (∀ s, lookupKey key c.options = some (PyVal.str s) →
        (c.get_bool key default = true ↔
          s.toLower = "true" ∨ s.toLower = "1" ∨ s.toLower = "yes" ∨ s.toLower = "on")) ∧
    (∀ n, lookupKey key c.options = some (PyVal.int n) →
        (c.get_bool key default = true ↔ n ≠ 0)) ∧
    (∀ vs, lookupKey key c.options = some (PyVal.list vs) →
        (c.get_bool key default = true ↔ vs ≠ [])) ∧
    (lookupKey key c.options = Option.none → c.get_bool key default = default) ∧
    (lookupKey key c.options = some PyVal.none → c.get_bool key default = default) := by
  refine ⟨?_, ?_, ?_, ?_, ?_, ?_⟩
  · intro b h
    simp [BackendConfig.get_bool, h]
  · intro s h
    simp [BackendConfig.get_bool, h, List.contains]
  · intro n h
    simp [BackendConfig.get_bool, h, pyTruthy]
  · intro vs h
    simp [BackendConfig.get_bool, h, pyTruthy, List.isEmpty_iff]
  · intro h
    simp [BackendConfig.get_bool, h]
  · intro h
    simp [BackendConfig.get_bool, h]

/-- A configuration whose only option holds the integer 2. -/
def cIntFlag : BackendConfig := ⟨"test", [("flag", PyVal.int 2)], "defaults"⟩

/-- C9 (witness): applying the coercion characterization at the stored
integer 2 yields true. -/
theorem get_bool_coercion_witness : cIntFlag.get_bool "flag" false = true := by
  have h := (get_bool_coercion cIntFlag "flag" false).2.2.1 2 (by decide)
  exact h.mpr (by decide)

/-- C9 (counterexample): the claim asserts every non-boolean non-string
stored value coerces to false, but `get_bool` on the stored integer 2
returns true (Python `bool(2)`). -/
theorem get_bool_int_counterexample : cIntFlag.get_bool "flag" false = true := by
  decide

/-- The outcome of running one backend descriptor's loader: either the
adapter module imports and exposes its implementation class — with the
module-level `AVAILABLE` flag present (`some b`) or absent (`none`), as in
docling_backend.py lines 38-43 — or the import raises `ImportError`. -/
inductive LoadResult : Type where
  | ok : Option Bool → LoadResult
  | importError : LoadResult
deriving DecidableEq, Repr

/-- The Python exceptions raised by the selection and parse entry points,
by kind: `ValueError` for an unknown backend (api.py line 61, carrying the
registry's key list), `ImportError` for a known but uninstalled backend
(api.py lines 64-67), `RuntimeError` when auto-selection finds nothing
(api.py lines 77-80), `FileNotFoundError` from the parse precondition
(api.py lines 106-107 and 129-130), and the errors that a loader or a
backend constructor may itself raise inside `get_instance`. -/
inductive PyError : Type where
  | unknownBackend : String → List String → PyError
  | notInstalled : String → PyError
  | noBackendsAvailable : PyError
  | fileNotFound : String → PyError
  | loaderImportError : PyError
  | constructorError : PyError
deriving DecidableEq, Repr

/-- The ambient Python process state the registry interacts with: the
behaviour of each backend's loader (what importing the adapter module
does), whether constructing each backend class currently raises (missing
credentials, bad arguments), a counter allocating fresh object identities
for constructed instances, the file system seen by `Path.exists`, and the
text each constructed instance produces for a path via `parse` or, when
the instance exposes one, its `parse_async`. -/
structure PyWorld : Type where
  loaderResult : String → LoadResult
  ctorFails : String → Bool
  nextId : Nat
  fileExists : String → Bool
  parseOut : Nat → String → String
  hasAsync : Nat → Bool
  asyncOut : Nat → String → String

/-- `BackendInfo` from registry.py lines 13-45: static descriptor fields
plus the two mutable caches `_instance` (the constructed singleton, as an
object identity) and `_available` (the tri-state availability cache). The
loader is identified by the backend name; its behaviour lives in
`PyWorld.loaderResult`. -/
structure BackendInfo : Type where
  name : String
  description : String
  package : String
  weight : String
  _instance : Option Nat
  _available : Option Bool
deriving DecidableEq, Repr

/-- `BackendInfo.is_available` from registry.py lines 26-38: on a cache
miss, run the loader; an `ImportError` caches false; otherwise read the
adapter module's `AVAILABLE` flag, absent meaning true
(`getattr(mod, "AVAILABLE", True)`), and cache it.  Returns the result
together with the descriptor after the cache write. -/
def BackendInfo.is_available (info : BackendInfo) (w : PyWorld) : Bool × BackendInfo :=
  match info._available with
  | some b => (b, info)
  | Option.none =>
    match w.loaderResult info.name with
    | LoadResult.importError => (false, { info with _available := some false })
    | LoadResult.ok flag =>
      let b := flag.getD true
      (b, { info with _available := some b })

/-- `BackendInfo.get_instance` from registry.py lines 40-45: return the
cached instance if one exists; otherwise run the loader (an `ImportError`
propagates) and construct the class (a constructor failure propagates,
leaving the cache unset); on success allocate the instance, cache it and
return it.  Returns the outcome with the descriptor and world after the
call. -/
def BackendInfo.get_instance (info : BackendInfo) (w : PyWorld) :
    Except PyError Nat × BackendInfo × PyWorld :=
  match info._instance with
  | some inst => (Except.ok inst, info, w)
  | Option.none =>
    match w.loaderResult info.name with
    | LoadResult.importError => (Except.error PyError.loaderImportError, info, w)
    | LoadResult.ok _ =>
      if w.ctorFails info.name then (Except.error PyError.constructorError, info, w)
      else (Except.ok w.nextId, { info with _instance := some w.nextId },
            { w with nextId := w.nextId + 1 })

/-- The availability a fresh probe computes for a backend name in a given
world: false on `ImportError`, else the module flag with absent meaning
present. -/
def availOf (w : PyWorld) (n : String) : Bool :=
  match w.loaderResult n with
  | LoadResult.importError => false
  | LoadResult.ok flag => flag.getD true

/-- A freshly registered descriptor: both caches empty, as every entry of
`BACKEND_REGISTRY` is constructed (registry.py lines 175-311). -/
def mkInfo (name description package weight : String) : BackendInfo :=
  ⟨name, description, package, weight, Option.none, Option.none⟩

/-- The registry dictionary, observationally: an association list read
through `lookupKey`. -/
abbrev Registry := List (String × BackendInfo)

/-- `BACKEND_REGISTRY` from registry.py lines 175-311 (the apostrophes of
two description strings are elided; no theorem inspects descriptions). -/
def BACKEND_REGISTRY : Registry :=
  [("pypdf", mkInfo "pypdf" "Pure Python PDF library, lightweight" "pypdf" "light"),
   ("pdfplumber", mkInfo "pdfplumber" "Detailed PDF parsing, excellent for tables"
      "pdfplumber" "light"),
   ("pymupdf", mkInfo "pymupdf" "Fast MuPDF bindings, good general purpose"
      "pymupdf" "light"),
   ("pymupdf4llm", mkInfo "pymupdf4llm" "PyMuPDF optimized for LLM consumption"
      "pymupdf4llm" "medium"),
   ("pdfminer", mkInfo "pdfminer" "Mature PDF text extraction library"
      "pdfminer.six" "light"),
   ("pypdfium2", mkInfo "pypdfium2" "PDFium bindings, Chromes PDF engine"
      "pypdfium2" "light"),
   ("unstructured", mkInfo "unstructured" "Document processing for LLMs"
      "unstructured" "medium"),
   ("kreuzberg", mkInfo "kreuzberg" "Fast Rust-based extraction with OCR"
      "kreuzberg" "medium"),
   ("extractous", mkInfo "extractous" "Rust-based text extraction"
      "extractous" "medium"),
   ("docling", mkInfo "docling" "IBMs document understanding, best quality"
      "docling" "heavy"),
   ("marker", mkInfo "marker" "Deep learning PDF to markdown, great for academic"
      "marker-pdf" "heavy"),
   ("aws_textract", mkInfo "aws_textract" "AWS Textract, commercial OCR and text extraction"
      "boto3" "commercial"),
   ("azure_document_intelligence", mkInfo "azure_document_intelligence"
      "Azure Document Intelligence, high-accuracy OCR"
      "azure-ai-documentintelligence" "commercial"),
   ("google_document_ai", mkInfo "google_document_ai"
      "Google Document AI, advanced document understanding"
      "google-cloud-documentai" "commercial"),
   ("databricks", mkInfo "databricks" "Databricks ai_parse_document via SQL warehouse"
      "databricks-sdk" "commercial"),
   ("llamaparse", mkInfo "llamaparse" "LlamaIndex LlamaParse, GenAI-native document parsing"
      "llama-parse" "commercial"),
   ("anthropic", mkInfo "anthropic" "Anthropic Claude, frontier multimodal PDF parsing"
      "anthropic" "commercial"),
   ("openai", mkInfo "openai" "OpenAI GPT, frontier multimodal PDF parsing"
      "openai" "commercial"),
   ("gemini", mkInfo "gemini" "Google Gemini, frontier multimodal PDF parsing"
      "google-genai" "commercial")]

/-- In-place mutation of the descriptor object held in the registry
dictionary under a name (Python mutates the `BackendInfo` the dict holds;
we rebuild the entry). -/
def regSet (reg : Registry) (n : String) (info : BackendInfo) : Registry :=
  reg.map (fun p => if p.1 = n then (p.1, info) else p)

/-- `DEFAULT_PREFERENCE` from api.py lines 13-25. -/
def DEFAULT_PREFERENCE : List String :=
  ["docling", "marker", "pymupdf4llm", "kreuzberg", "unstructured",
   "pdfplumber", "pymupdf", "pypdf", "pdfminer", "pypdfium2", "extractous"]

/-- The loop of `available_backends` from api.py lines 33-41: walk the
preference list; for each name present in the registry, probe availability
(writing the cache back into the registry) and collect the descriptor when
available. -/
def available_backends_loop (names : List String) (reg : Registry) (w : PyWorld) :
    List BackendInfo × Registry :=
  match names with
  | [] => ([], reg)
  | n :: rest =>
    match lookupKey n reg with
    | Option.none => available_backends_loop rest reg w
    | some info =>
      let probe := info.is_available w
      let tail := available_backends_loop rest (regSet reg n probe.2) w
      if probe.1 then (probe.2 :: tail.1, tail.2) else tail

/-- `available_backends` from api.py lines 33-41. -/
def available_backends (reg : Registry) (w : PyWorld) : List BackendInfo × Registry :=
  available_backends_loop DEFAULT_PREFERENCE reg w

/-- The auto-selection loop of `get_backend` from api.py lines 70-80: walk
the preference list; for each name present in the registry, probe
availability; on the first available hit return `get_instance`; if the
list is exhausted raise `RuntimeError` ("No PDF parsing backends are
installed"). -/
def auto_select_loop (names : List String) (reg : Registry) (w : PyWorld) :
    Except PyError Nat × Registry × PyWorld :=
  match names with
  | [] => (Except.error PyError.noBackendsAvailable, reg, w)
  | n :: rest =>
    match lookupKey n reg with
    | Option.none => auto_select_loop rest reg w
    | some info =>
      let probe := info.is_available w
      let reg' := regSet reg n probe.2
      if probe.1 then
        let step := probe.2.get_instance w
        (step.1, regSet reg' n step.2.1, step.2.2)
      else auto_select_loop rest reg' w

/-- `get_backend` from api.py lines 44-80: with an explicit name, raise
`ValueError` naming the registry keys when the name is unknown, raise
`ImportError` when the backend is not available, else return
`get_instance`; with no name, auto-select over `DEFAULT_PREFERENCE`. -/
def get_backend (reg : Registry) (w : PyWorld) (name : Option String) :
    Except PyError Nat × Registry × PyWorld :=
  match name with
  | some n =>
    match lookupKey n reg with
    | Option.none =>
        (Except.error (PyError.unknownBackend n (reg.map Prod.fst)), reg, w)
    | some info =>
      let probe := info.is_available w
      let reg' := regSet reg n probe.2
      if probe.1 then
        let step := probe.2.get_instance w
        (step.1, regSet reg' n step.2.1, step.2.2)
      else (Except.error (PyError.notInstalled n), reg', w)
  | Option.none => auto_select_loop DEFAULT_PREFERENCE reg w

/-- `parse` from api.py lines 83-110: raise `FileNotFoundError` when the
path does not exist, before any backend work; otherwise activate a backend
via `get_backend` and delegate to the instance. -/
def parse (reg : Registry) (w : PyWorld) (pdf_path : String) (backend : Option String) :
    Except PyError String × Registry × PyWorld :=
  if w.fileExists pdf_path then
    match get_backend reg w backend with
    | (Except.ok inst, reg', w') => (Except.ok (w'.parseOut inst pdf_path), reg', w')
    | (Except.error e, reg', w') => (Except.error e, reg', w')
  else (Except.error (PyError.fileNotFound pdf_path), reg, w)

/-- `parse_async` from api.py lines 113-140: the identical precondition and
activation sequence; then the instance's own `parse_async` when it exposes
one, else the blocking `parse` dispatched to an executor. -/
def parse_async (reg : Registry) (w : PyWorld) (pdf_path : String) (backend : Option String) :
    Except PyError String × Registry × PyWorld :=
  if w.fileExists pdf_path then
    match get_backend reg w backend with
    | (Except.ok inst, reg', w') =>
      if w'.hasAsync inst then (Except.ok (w'.asyncOut inst pdf_path), reg', w')
      else (Except.ok (w'.parseOut inst pdf_path), reg', w')
    | (Except.error e, reg', w') => (Except.error e, reg', w')
  else (Except.error (PyError.fileNotFound pdf_path), reg, w)

theorem is_available_cache_set (info : BackendInfo) (w : PyWorld) :
    ((info.is_available w).2)._available = some (info.is_available w).1 := by
  unfold BackendInfo.is_available
  cases h : info._available with
  | some b => exact h
  | none => cases hl : w.loaderResult info.name <;> simp

theorem is_available_of_cached (info : BackendInfo) (w : PyWorld) (b : Bool)
    (h : info._available = some b) : info.is_available w = (b, info) := by
  unfold BackendInfo.is_available
  rw [h]

/-- C3: for a registered backend whose availability was never probed,
`is_available` is false exactly when the loader raises `ImportError` or the
loaded module carries `AVAILABLE = False` (an absent flag counts as
present); and the value computed by the first call is cached, so every
later call — whatever the world then looks like — returns that same value
and leaves the descriptor unchanged. -/
theorem is_available_spec (info : BackendInfo) (w : PyWorld)
    (h : info._available = Option.none) :
    ((info.is_available w).1 = false ↔
        w.loaderResult info.name = LoadResult.importError ∨
        w.loaderResult info.name = LoadResult.ok (some false)) ∧
    (∀ w' : PyWorld, ((info.is_available w).2).is_available w' =
        ((info.is_available w).1, (info.is_available w).2)) := by
  constructor
  · unfold BackendInfo.is_available
    rw [h]
    cases hl : w.loaderResult info.name with
    | importError => simp
    | ok flag =>
      cases flag with
      | none => simp
      | some b => cases b <;> simp
  · intro w'
    exact is_available_of_cached _ w' _ (is_available_cache_set info w)

/-- A world in which no optional dependency is installed, no file exists
and no constructor fails. -/
def wBase : PyWorld :=
  ⟨fun _ => LoadResult.importError, fun _ => false, 0, fun _ => false,
   fun _ _ => "", fun _ => false, fun _ _ => ""⟩

/-- C3 (witness): the docling descriptor, probed in a world where importing
docling fails, is unavailable. -/
theorem is_available_spec_witness :
    ((mkInfo "docling" "IBMs document understanding, best quality" "docling" "heavy").is_available
        wBase).1 = false := by
  have h := is_available_spec
    (mkInfo "docling" "IBMs document understanding, best quality" "docling" "heavy") wBase rfl
  exact h.1.mpr (Or.inl rfl)

/-- C4: for a registered backend with no cached instance, a successful
`get_instance` allocates exactly one fresh instance, caches it, and every
later call returns that identical object without touching the world; a
failing `get_instance` leaves descriptor and world exactly as they were, so
a later call in a world where the loader succeeds and the constructor no
longer fails constructs and succeeds. -/
theorem get_instance_spec (info : BackendInfo) (w : PyWorld)
    (h : info._instance = Option.none) :
    (∀ inst info' w', info.get_instance w = (Except.ok inst, info', w') →
        inst = w.nextId ∧
        info' = { info with _instance := some inst } ∧
        w' = { w with nextId := w.nextId + 1 } ∧
        ∀ w₂ : PyWorld, info'.get_instance w₂ = (Except.ok inst, info', w₂)) ∧
    (∀ e info' w', info.get_instance w = (Except.error e, info', w') →
        info' = info ∧ w' = w ∧
        ∀ (w₂ : PyWorld) (flag : Option Bool),
          w₂.loaderResult info.name = LoadResult.ok flag →
          w₂.ctorFails info.name = false →
          info.get_instance w₂ =
            (Except.ok w₂.nextId, { info with _instance := some w₂.nextId },
             { w₂ with nextId := w₂.nextId + 1 })) := by
  have hretry : ∀ (w₂ : PyWorld) (flag : Option Bool),
      w₂.loaderResult info.name = LoadResult.ok flag →
      w₂.ctorFails info.name = false →
      info.get_instance w₂ =
        (Except.ok w₂.nextId, { info with _instance := some w₂.nextId },
         { w₂ with nextId := w₂.nextId + 1 }) := by
    intro w₂ flag hl₂ hc₂
    unfold BackendInfo.get_instance
    rw [h, hl₂, hc₂]
    simp
  constructor
  · intro inst info' w' hok
    cases hl : w.loaderResult info.name with
    | importError =>
      have hcomp : info.get_instance w = (Except.error PyError.loaderImportError, info, w) := by
        unfold BackendInfo.get_instance
        rw [h, hl]
      rw [hcomp] at hok
      exact absurd (congrArg Prod.fst hok) (by simp)
    | ok flag =>
      cases hc : w.ctorFails info.name with
      | true =>
        have hcomp : info.get_instance w = (Except.error PyError.constructorError, info, w) := by
          unfold BackendInfo.get_instance
          rw [h, hl, hc]
          simp
        rw [hcomp] at hok
        exact absurd (congrArg Prod.fst hok) (by simp)
      | false =>
        have hcomp := hretry w flag hl hc
        rw [hcomp] at hok
        have h1 : w.nextId = inst := by
          have := congrArg Prod.fst hok
          simpa using this
        have h2 : ({ info with _instance := some w.nextId } : BackendInfo) = info' := by
          have := congrArg (fun p => p.2.1) hok
          simpa using this
        have h3 : ({ w with nextId := w.nextId + 1 } : PyWorld) = w' := by
          have := congrArg (fun p => p.2.2) hok
          simpa using this
        subst h1
        refine ⟨rfl, h2.symm, h3.symm, ?_⟩
        intro w₂
        rw [← h2]
        unfold BackendInfo.get_instance
        rfl
  · intro e info' w' herr
    cases hl : w.loaderResult info.name with
    | importError =>
      have hcomp : info.get_instance w = (Except.error PyError.loaderImportError, info, w) := by
        unfold BackendInfo.get_instance
        rw [h, hl]
      rw [hcomp] at herr
      have h2 : info = info' := by
        have := congrArg (fun p => p.2.1) herr
        simpa using this
      have h3 : w = w' := by
        have := congrArg (fun p => p.2.2) herr
        simpa using this
      exact ⟨h2.symm, h3.symm, hretry⟩
    | ok flag =>
      cases hc : w.ctorFails info.name with
      | true =>
        have hcomp : info.get_instance w = (Except.error PyError.constructorError, info, w) := by
          unfold BackendInfo.get_instance
          rw [h, hl, hc]
          simp
        rw [hcomp] at herr
        have h2 : info = info' := by
          have := congrArg (fun p => p.2.1) herr
          simpa using this
        have h3 : w = w' := by
          have := congrArg (fun p => p.2.2) herr
          simpa using this
        exact ⟨h2.symm, h3.symm, hretry⟩
      | false =>
        have hcomp := hretry w flag hl hc
        rw [hcomp] at herr
        exact absurd (congrArg Prod.fst herr) (by simp)

/-- C4 (witness): in a world where the pypdf loader succeeds and the
constructor does not fail, a first call from an uncached descriptor
allocates instance 0, and a second call returns the identical cached
instance 0 without changing the world. -/
theorem get_instance_spec_witness :
    ({ mkInfo "pypdf" "Pure Python PDF library, lightweight" "pypdf" "light" with
        _instance := some 0 } : BackendInfo).get_instance
      { wBase with loaderResult := fun _ => LoadResult.ok Option.none } =
    (Except.ok 0,
     { mkInfo "pypdf" "Pure Python PDF library, lightweight" "pypdf" "light" with
        _instance := some 0 },
     { wBase with loaderResult := fun _ => LoadResult.ok Option.none }) := by
  have h := (get_instance_spec
      (mkInfo "pypdf" "Pure Python PDF library, lightweight" "pypdf" "light")
      { wBase with loaderResult := fun _ => LoadResult.ok Option.none } rfl).1 0
    ({ mkInfo "pypdf" "Pure Python PDF library, lightweight" "pypdf" "light" with
        _instance := some 0 })
    ({ wBase with loaderResult := fun _ => LoadResult.ok Option.none, nextId := 1 }) rfl
  exact h.2.2.2 _

/-- C8: for every path the file system reports absent, `parse` and
`parse_async` fail with the file-not-found error, whatever backend argument
is given and whatever is installed, and the returned registry and world are
exactly the inputs: no availability probe, loader invocation or instance
construction is observable. -/
theorem parse_missing_file (reg : Registry) (w : PyWorld) (pdf_path : String)
    (backend : Option String) (h : w.fileExists pdf_path = false) :
    parse reg w pdf_path backend = (Except.error (PyError.fileNotFound pdf_path), reg, w) ∧
    parse_async reg w pdf_path backend =
      (Except.error (PyError.fileNotFound pdf_path), reg, w) := by
  constructor
  · unfold parse
    rw [h]
    simp
  · unfold parse_async
    rw [h]
    simp

/-- C8 (witness): parsing a missing path in the base world fails with the
file-not-found error and leaves the registry untouched. -/
theorem parse_missing_file_witness :
    parse BACKEND_REGISTRY wBase "/no/such.pdf" Option.none =
      (Except.error (PyError.fileNotFound "/no/such.pdf"), BACKEND_REGISTRY, wBase) :=
  (parse_missing_file BACKEND_REGISTRY wBase "/no/such.pdf" Option.none rfl).1

theorem lookupKey_regSet (reg : Registry) (n : String) (info : BackendInfo) (m : String) :
    lookupKey m (regSet reg n info) =
      if m = n then (lookupKey n reg).map (fun _ => info) else lookupKey m reg := by
  induction reg with
  | nil => simp [regSet, lookupKey]
  | cons p rest ih =>
    obtain ⟨k, v⟩ := p
    simp only [regSet, List.map_cons] at ih ⊢
    by_cases hkn : k = n
    · rw [if_pos hkn]
      subst hkn
      by_cases hmk : m = k
      · subst hmk
        simp [lookupKey]
      · simp only [lookupKey, if_neg hmk, ih]
    · rw [if_neg hkn]
      by_cases hmk : m = k
      · subst hmk
        have hmn : ¬m = n := hkn
        simp [lookupKey, hmn]
      · by_cases hmn : m = n
        · subst hmn
          have hnk : ¬m = k := hmk
          simp only [lookupKey, if_neg hmk, ih, if_pos rfl]
        · simp only [lookupKey, if_neg hmk, ih, if_neg hmn]

theorem is_available_name (info : BackendInfo) (w : PyWorld) :
    ((info.is_available w).2).name = info.name := by
  unfold BackendInfo.is_available
  cases info._available with
  | some b => rfl
  | none => cases w.loaderResult info.name <;> rfl

/-- The invariant the auto-selection and listing loops maintain over the
registry: every stored descriptor carries its own key as `name`, and its
availability cache, when set, agrees with what a fresh probe would compute
in the current world. `BACKEND_REGISTRY` satisfies it with all caches
unset. -/
def regGood (w : PyWorld) (reg : Registry) : Prop :=
  ∀ n info, lookupKey n reg = some info →
    info.name = n ∧
      (info._available = Option.none ∨ info._available = some (availOf w n))

theorem is_available_good (w : PyWorld) (info : BackendInfo) (n : String)
    (hname : info.name = n)
    (hcache : info._available = Option.none ∨ info._available = some (availOf w n)) :
    info.is_available w = (availOf w n, { info with _available := some (availOf w n) }) := by
  cases hcache with
  | inl hfresh =>
    unfold BackendInfo.is_available
    rw [hfresh, hname]
    unfold availOf
    cases w.loaderResult n <;> simp
  | inr hcached =>
    have hcomp := is_available_of_cached info w (availOf w n) hcached
    rw [hcomp]
    cases info
    simp only at hcached
    simp [hcached]

theorem regGood_set (w : PyWorld) (reg : Registry) (hg : regGood w reg) (n : String)
    (info : BackendInfo) (hname : info.name = n)
    (hcache : info._available = Option.none ∨ info._available = some (availOf w n)) :
    regGood w (regSet reg n info) := by
  intro m i hm
  rw [lookupKey_regSet] at hm
  by_cases hmn : m = n
  · subst hmn
    cases hl : lookupKey m reg with
    | none => rw [if_pos rfl, hl] at hm; simp at hm
    | some j =>
      rw [if_pos rfl, hl] at hm
      simp at hm
      subst hm
      exact ⟨hname, hcache⟩
  · rw [if_neg hmn] at hm
    exact hg m i hm

theorem get_instance_keeps_name_cache (info : BackendInfo) (w : PyWorld) :
    ((info.get_instance w).2.1).name = info.name ∧
    ((info.get_instance w).2.1)._available = info._available := by
  unfold BackendInfo.get_instance
  cases info._instance with
  | some inst => exact ⟨rfl, rfl⟩
  | none =>
    cases w.loaderResult info.name with
    | importError => exact ⟨rfl, rfl⟩
    | ok flag =>
      cases hc : w.ctorFails info.name <;> simp

/-- The first name of a list that is both a key of the registry and
available in the given world — the name preference-based auto-selection
must pick (the claim's "available name with the lowest index"). -/
def preferred_available (w : PyWorld) (reg : Registry) : List String → Option String
  | [] => Option.none
  | n :: rest =>
    match lookupKey n reg with
    | some _ => if availOf w n then some n else preferred_available w reg rest
    | Option.none => preferred_available w reg rest

theorem preferred_available_regSet (w : PyWorld) (reg : Registry) (n : String)
    (i : BackendInfo) (names : List String) :
    preferred_available w (regSet reg n i) names = preferred_available w reg names := by
  induction names with
  | nil => rfl
  | cons m rest ih =>
    simp only [preferred_available, lookupKey_regSet]
    by_cases hmn : m = n
    · subst hmn
      cases hl : lookupKey m reg with
      | none => simp [hl, ih]
      | some j => simp [hl, ih]
    · simp [hmn, ih]

theorem regGood_entrywise (w : PyWorld) (reg : Registry)
    (h : ∀ p ∈ reg, p.2.name = p.1 ∧ p.2._available = Option.none) : regGood w reg := by
  intro n info hl
  obtain ⟨h1, h2⟩ := h (n, info) (lookupKey_mem hl)
  exact ⟨h1, Or.inl h2⟩

theorem regGood_registry (w : PyWorld) : regGood w BACKEND_REGISTRY :=
  regGood_entrywise w _ (by decide)

/-- If no name of the list is registered and available, the auto-selection
loop exhausts it, raises the no-backends error, leaves the world unchanged
and touches no registry entry outside the list. -/
theorem auto_select_loop_none (w : PyWorld) (names : List String) :
    ∀ reg : Registry, regGood w reg →
      preferred_available w reg names = Option.none →
      ∃ reg',
        auto_select_loop names reg w = (Except.error PyError.noBackendsAvailable, reg', w) ∧
        ∀ m, m ∉ names → lookupKey m reg' = lookupKey m reg := by
  induction names with
  | nil =>
    intro reg _ _
    exact ⟨reg, rfl, fun m _ => rfl⟩
  | cons n rest ih =>
    intro reg hg hpref
    cases hl : lookupKey n reg with
    | none =>
      have hrest : preferred_available w reg rest = Option.none := by
        simp only [preferred_available, hl] at hpref
        exact hpref
      obtain ⟨reg', h1, h2⟩ := ih reg hg hrest
      refine ⟨reg', ?_, ?_⟩
      · simp only [auto_select_loop, hl]
        exact h1
      · intro m hm
        exact h2 m (fun hmem => hm (List.mem_cons_of_mem _ hmem))
    | some info =>
      obtain ⟨hname, hcache⟩ := hg n info hl
      have hav := is_available_good w info n hname hcache
      have havF : availOf w n = false := by
        simp only [preferred_available, hl] at hpref
        by_cases hb : availOf w n = true
        · rw [if_pos hb] at hpref
          exact absurd hpref (by simp)
        · simpa using hb
      rw [havF] at hav
      have hrest : preferred_available w reg rest = Option.none := by
        simp only [preferred_available, hl, havF] at hpref
        simpa using hpref
      have hg' : regGood w (regSet reg n { info with _available := some false }) :=
        regGood_set w reg hg n _ hname (Or.inr (by rw [havF]))
      have hprefset :
          preferred_available w (regSet reg n { info with _available := some false })
            rest = Option.none := by
        rw [preferred_available_regSet]
        exact hrest
      obtain ⟨reg', h1, h2⟩ := ih _ hg' hprefset
      refine ⟨reg', ?_, ?_⟩
      · simp only [auto_select_loop, hl, hav, Bool.false_eq_true, if_false]
        exact h1
      · intro m hm
        have hm1 : ¬m = n := fun hmn => hm (by rw [hmn]; exact List.mem_cons_self _ _)
        have hm2 : m ∉ rest := fun hmem => hm (List.mem_cons_of_mem _ hmem)
        rw [h2 m hm2, lookupKey_regSet, if_neg hm1]

/-- If some name of the list is registered and available, the auto-selection
loop activates exactly the first such name: the overall outcome is the
outcome of `get_instance` on that name's descriptor (availability freshly
cached true), and no registry entry outside the list is touched. -/
theorem auto_select_loop_hit (w : PyWorld) (names : List String) :
    ∀ (reg : Registry) (n : String), regGood w reg →
      preferred_available w reg names = some n →
      ∃ info, lookupKey n reg = some info ∧ availOf w n = true ∧ n ∈ names ∧
        (auto_select_loop names reg w).1 =
          (({ info with _available := some true }).get_instance w).1 ∧
        ∀ m, m ∉ names →
          lookupKey m (auto_select_loop names reg w).2.1 = lookupKey m reg := by
  induction names with
  | nil =>
    intro reg n _ hpref
    simp [preferred_available] at hpref
  | cons k rest ih =>
    intro reg n hg hpref
    cases hl : lookupKey k reg with
    | none =>
      have hrest : preferred_available w reg rest = some n := by
        simp only [preferred_available, hl] at hpref
        exact hpref
      obtain ⟨info, h1, h2, h3, h4, h5⟩ := ih reg n hg hrest
      refine ⟨info, h1, h2, List.mem_cons_of_mem _ h3, ?_, ?_⟩
      · simp only [auto_select_loop, hl]
        exact h4
      · intro m hm
        simp only [auto_select_loop, hl]
        exact h5 m (fun hmem => hm (List.mem_cons_of_mem _ hmem))
    | some info =>
      obtain ⟨hname, hcache⟩ := hg k info hl
      have hav := is_available_good w info k hname hcache
      by_cases hb : availOf w k = true
      · have hnk : n = k := by
          simp only [preferred_available, hl, hb, if_true] at hpref
          simp only [Option.some.injEq] at hpref
          · exact hpref.symm
        subst hnk
        rw [hb] at hav
        refine ⟨info, hl, hb, List.mem_cons_self _ _, ?_, ?_⟩
        · simp only [auto_select_loop, hl, hav, if_true]
        · intro m hm
          have hm1 : ¬m = n := fun hmn => hm (by rw [hmn]; exact List.mem_cons_self _ _)
          simp only [auto_select_loop, hl, hav, if_true]
          rw [lookupKey_regSet, if_neg hm1, lookupKey_regSet, if_neg hm1]
      · have havF : availOf w k = false := by simpa using hb
        rw [havF] at hav
        have hrest : preferred_available w reg rest = some n := by
          simp only [preferred_available, hl, havF] at hpref
          simpa using hpref
        have hg' : regGood w (regSet reg k { info with _available := some false }) :=
          regGood_set w reg hg k _ hname (Or.inr (by rw [havF]))
        have hprefset :
            preferred_available w (regSet reg k { info with _available := some false })
              rest = some n := by
          rw [preferred_available_regSet]
          exact hrest
        obtain ⟨info', h1, h2, h3, h4, h5⟩ := ih _ n hg' hprefset
        have hnk : ¬n = k := fun hnk => by rw [hnk, havF] at h2; exact absurd h2 (by simp)
        rw [lookupKey_regSet, if_neg hnk] at h1
        refine ⟨info', h1, h2, List.mem_cons_of_mem _ h3, ?_, ?_⟩
        · simp only [auto_select_loop, hl, hav, Bool.false_eq_true, if_false]
          exact h4
        · intro m hm
          have hm1 : ¬m = k := fun hmk => hm (by rw [hmk]; exact List.mem_cons_self _ _)
          have hm2 : m ∉ rest := fun hmem => hm (List.mem_cons_of_mem _ hmem)
          simp only [auto_select_loop, hl, hav, Bool.false_eq_true, if_false]
          rw [h5 m hm2, lookupKey_regSet, if_neg hm1]

/-- C2: whenever some preference-list name is registered and available —
`preferred_available` names the first such, i.e. the one with the lowest
index — auto-selection activates exactly that backend: the outcome is the
outcome of `get_instance` on its descriptor, and when its constructor does
not fail the freshly allocated instance of that backend is returned. -/
theorem get_backend_auto_select (w : PyWorld) (n : String)
    (h : preferred_available w BACKEND_REGISTRY DEFAULT_PREFERENCE = some n) :
    ∃ info, lookupKey n BACKEND_REGISTRY = some info ∧ availOf w n = true ∧
      n ∈ DEFAULT_PREFERENCE ∧
      (get_backend BACKEND_REGISTRY w Option.none).1 =
        (({ info with _available := some true }).get_instance w).1 ∧
      (w.ctorFails n = false →
        (get_backend BACKEND_REGISTRY w Option.none).1 = Except.ok w.nextId) := by
  obtain ⟨info, h1, h2, h3, h4, _⟩ := auto_select_loop_hit w DEFAULT_PREFERENCE
    BACKEND_REGISTRY n (regGood_registry w) h
  have hname : info.name = n := ((regGood_registry w) n info h1).1
  have hinst : info._instance = Option.none := by
    have hd : ∀ p ∈ BACKEND_REGISTRY, p.2._instance = Option.none := by decide
    exact hd (n, info) (lookupKey_mem h1)
  refine ⟨info, h1, h2, h3, h4, ?_⟩
  intro hc
  have hflag : ∃ flag, w.loaderResult n = LoadResult.ok flag := by
    unfold availOf at h2
    cases hlr : w.loaderResult n with
    | ok f => exact ⟨f, rfl⟩
    | importError => rw [hlr] at h2; simp at h2
  obtain ⟨flag, hflag⟩ := hflag
  obtain ⟨iname, idesc, ipkg, iwt, iinst, iavail⟩ := info
  simp only [mkInfo] at hname hinst
  subst hname
  subst hinst
  show (auto_select_loop DEFAULT_PREFERENCE BACKEND_REGISTRY w).1 = Except.ok w.nextId
  rw [h4]
  simp [BackendInfo.get_instance, hflag, hc]

/-- A world in which exactly the pymupdf and pypdf loaders succeed (their
modules carry no AVAILABLE flag) and no constructor fails. -/
def wPym : PyWorld :=
  ⟨fun n => if n = "pymupdf" ∨ n = "pypdf" then LoadResult.ok Option.none
            else LoadResult.importError,
   fun _ => false, 0, fun _ => false, fun _ _ => "", fun _ => false, fun _ _ => ""⟩

/-- C2 (witness): with pymupdf and pypdf both available and pymupdf ranked
before pypdf, auto-selection succeeds and returns the instance constructed
for the first hit. -/
theorem get_backend_auto_select_witness :
    (get_backend BACKEND_REGISTRY wPym Option.none).1 = Except.ok 0 := by
  obtain ⟨info, _, _, _, _, h5⟩ := get_backend_auto_select wPym "pymupdf" (by decide)
  exact h5 rfl

theorem preferred_available_none_iff (w : PyWorld) (reg : Registry) (names : List String) :
    preferred_available w reg names = Option.none ↔
      ∀ n ∈ names, lookupKey n reg = Option.none ∨ availOf w n = false := by
  induction names with
  | nil => simp [preferred_available]
  | cons k rest ih =>
    cases hl : lookupKey k reg with
    | none =>
      simp only [preferred_available, hl]
      rw [ih]
      constructor
      · intro h n hn
        rcases List.mem_cons.mp hn with h1 | h1
        · subst h1
          exact Or.inl hl
        · exact h n h1
      · intro h n hn
        exact h n (List.mem_cons_of_mem _ hn)
    | some j =>
      cases hb : availOf w k with
      | true =>
        simp only [preferred_available, hl, hb, if_true]
        constructor
        · intro h
          exact absurd h (by simp)
        · intro h
          rcases h k (List.mem_cons_self _ _) with h1 | h1
          · rw [h1] at hl
            exact absurd hl (by simp)
          · rw [h1] at hb
            exact absurd hb (by simp)
      | false =>
        simp only [preferred_available, hl, hb, Bool.false_eq_true, if_false]
        rw [ih]
        constructor
        · intro h n hn
          rcases List.mem_cons.mp hn with h1 | h1
          · subst h1
            exact Or.inr hb
          · exact h n h1
        · intro h n hn
          exact h n (List.mem_cons_of_mem _ hn)

theorem get_instance_not_noBackends (info : BackendInfo) (w : PyWorld) (flag : Option Bool)
    (hl : w.loaderResult info.name = LoadResult.ok flag) :
    (info.get_instance w).1 ≠ Except.error PyError.noBackendsAvailable := by
  unfold BackendInfo.get_instance
  cases info._instance with
  | some inst => simp
  | none =>
    rw [hl]
    cases hc : w.ctorFails info.name with
    | true => simp
    | false => simp

/-- C5 (amended): auto-selection raises the distinct no-backends error
exactly when no name of the fixed preference list is available; an
available registered backend outside the preference list (the commercial
tier) does not prevent the error. -/
theorem get_backend_none_error_iff (w : PyWorld) :
    ((get_backend BACKEND_REGISTRY w Option.none).1 =
        Except.error PyError.noBackendsAvailable) ↔
      ∀ n ∈ DEFAULT_PREFERENCE, availOf w n = false := by
  constructor
  · intro h
    by_contra hno
    push_neg at hno
    obtain ⟨n, hn, hnot⟩ := hno
    have hav : availOf w n = true := by
      cases hb : availOf w n
      · exact absurd hb hnot
      · rfl
    cases hp : preferred_available w BACKEND_REGISTRY DEFAULT_PREFERENCE with
    | none =>
      rw [preferred_available_none_iff] at hp
      rcases hp n hn with h1 | h1
      · have hd : ∀ x ∈ DEFAULT_PREFERENCE, (lookupKey x BACKEND_REGISTRY).isSome = true := by
          decide
        have := hd n hn
        rw [h1] at this
        exact absurd this (by simp)
      · rw [hav] at h1
        exact absurd h1 (by simp)
    | some m =>
      obtain ⟨info, hlook, hmav, _, h4, _⟩ := auto_select_loop_hit w DEFAULT_PREFERENCE
        BACKEND_REGISTRY m (regGood_registry w) hp
      have hname : info.name = m := ((regGood_registry w) m info hlook).1
      have hflag : ∃ flag, w.loaderResult m = LoadResult.ok flag := by
        unfold availOf at hmav
        cases hlr : w.loaderResult m with
        | ok f => exact ⟨f, rfl⟩
        | importError => rw [hlr] at hmav; simp at hmav
      obtain ⟨flag, hflag⟩ := hflag
      have hne := get_instance_not_noBackends ({ info with _available := some true }) w flag
        (by show w.loaderResult info.name = _; rw [hname]; exact hflag)
      exact hne (h4.symm.trans h)
  · intro hall
    have hp : preferred_available w BACKEND_REGISTRY DEFAULT_PREFERENCE = Option.none := by
      rw [preferred_available_none_iff]
      intro n hn
      exact Or.inr (hall n hn)
    obtain ⟨reg', h1, _⟩ := auto_select_loop_none w DEFAULT_PREFERENCE BACKEND_REGISTRY
      (regGood_registry w) hp
    show (auto_select_loop DEFAULT_PREFERENCE BACKEND_REGISTRY w).1 = _
    rw [h1]

/-- A world in which only the anthropic loader succeeds (its module flags
AVAILABLE = True) and no constructor fails: a commercial backend is
installed and usable, every preference-list backend is not. -/
def wCommercialOnly : PyWorld :=
  ⟨fun n => if n = "anthropic" then LoadResult.ok (some true) else LoadResult.importError,
   fun _ => false, 0, fun _ => false, fun _ _ => "", fun _ => false, fun _ _ => ""⟩

/-- The anthropic registry entry. -/
def anthropicInfo : BackendInfo :=
  mkInfo "anthropic" "Anthropic Claude, frontier multimodal PDF parsing"
    "anthropic" "commercial"

/-- C5 (counterexample): anthropic is registered and its `is_available`
probe is true, yet auto-selection still raises the no-backends error —
refuting the claim that the error occurs exactly when no registry entry is
available. -/
theorem no_backends_error_counterexample :
    lookupKey "anthropic" BACKEND_REGISTRY = some anthropicInfo ∧
    (anthropicInfo.is_available wCommercialOnly).1 = true ∧
    (get_backend BACKEND_REGISTRY wCommercialOnly Option.none).1 =
      Except.error PyError.noBackendsAvailable := by
  refine ⟨by decide, by decide, rfl⟩

/-- C5 (amended, witness): in the world where only anthropic is installed,
every preference-list name is unavailable, so the equivalence yields the
no-backends error. -/
theorem get_backend_none_error_iff_witness :
    (get_backend BACKEND_REGISTRY wCommercialOnly Option.none).1 =
      Except.error PyError.noBackendsAvailable :=
  (get_backend_none_error_iff wCommercialOnly).mpr (by decide)

/-- C7: explicit activation checks its three cases in order: a name that is
not a registry key fails with the unknown-backend error carrying the
registry's full key list (whatever is installed); a registered name whose
`is_available()` is false fails with the not-installed error naming it; a
registered available name is activated through `get_instance`. -/
theorem get_backend_explicit (w : PyWorld) (n : String) :
    (lookupKey n BACKEND_REGISTRY = Option.none →
        get_backend BACKEND_REGISTRY w (some n) =
          (Except.error (PyError.unknownBackend n (BACKEND_REGISTRY.map Prod.fst)),
           BACKEND_REGISTRY, w)) ∧
    (∀ info, lookupKey n BACKEND_REGISTRY = some info →
        (info.is_available w).1 = false →
        (get_backend BACKEND_REGISTRY w (some n)).1 =
          Except.error (PyError.notInstalled n)) ∧
    (∀ info, lookupKey n BACKEND_REGISTRY = some info →
        (info.is_available w).1 = true →
        (get_backend BACKEND_REGISTRY w (some n)).1 =
          (((info.is_available w).2).get_instance w).1) := by
  refine ⟨?_, ?_, ?_⟩
  · intro h
    simp only [get_backend, h]
  · intro info h hf
    simp only [get_backend, h]
    rw [hf]
    simp
  · intro info h ht
    simp only [get_backend, h]
    rw [ht]
    simp

/-- C7 (witness): requesting the unregistered name "nope" fails with the
unknown-backend error naming the full key set, leaving registry and world
untouched. -/
theorem get_backend_explicit_witness :
    get_backend BACKEND_REGISTRY wBase (some "nope") =
      (Except.error (PyError.unknownBackend "nope" (BACKEND_REGISTRY.map Prod.fst)),
       BACKEND_REGISTRY, wBase) :=
  (get_backend_explicit wBase "nope").1 (by decide)

theorem available_backends_loop_names (w : PyWorld) (names : List String) :
    ∀ reg : Registry, regGood w reg →
      ∀ info, info ∈ (available_backends_loop names reg w).1 → info.name ∈ names := by
  induction names with
  | nil =>
    intro reg _ info h
    simp [available_backends_loop] at h
  | cons k rest ih =>
    intro reg hg info hmem
    cases hl : lookupKey k reg with
    | none =>
      simp only [available_backends_loop, hl] at hmem
      exact List.mem_cons_of_mem _ (ih reg hg info hmem)
    | some j =>
      obtain ⟨hname, hcache⟩ := hg k j hl
      have hav := is_available_good w j k hname hcache
      cases hb : availOf w k with
      | false =>
        rw [hb] at hav
        have hg' : regGood w (regSet reg k { j with _available := some false }) :=
          regGood_set w reg hg k _ hname (Or.inr (by rw [hb]))
        simp only [available_backends_loop, hl, hav, Bool.false_eq_true, if_false] at hmem
        exact List.mem_cons_of_mem _ (ih _ hg' info hmem)
      | true =>
        rw [hb] at hav
        have hg' : regGood w (regSet reg k { j with _available := some true }) :=
          regGood_set w reg hg k _ hname (Or.inr (by rw [hb]))
        simp only [available_backends_loop, hl, hav, if_true] at hmem
        rcases List.mem_cons.mp hmem with h | h
        · rw [h]
          show j.name ∈ k :: rest
          rw [hname]
          exact List.mem_cons_self _ _
        · exact List.mem_cons_of_mem _ (ih _ hg' info h)

/-- The eight commercial and frontier-LLM backend names (registry.py lines
253-311), registered but absent from `DEFAULT_PREFERENCE`. -/
def COMMERCIAL_BACKENDS : List String :=
  ["aws_textract", "azure_document_intelligence", "google_document_ai",
   "databricks", "llamaparse", "anthropic", "openai", "gemini"]

/-- C10: each commercial backend is registered yet outside the preference
list, so whatever is installed: it never appears in the
`available_backends` listing, and auto-selection leaves its registry entry
completely untouched (no availability probe is cached and no instance is
constructed for it), hence never chooses it. -/
theorem commercial_backends_hidden (w : PyWorld) (c : String)
    (hc : c ∈ COMMERCIAL_BACKENDS) :
    (lookupKey c BACKEND_REGISTRY).isSome = true ∧
    c ∉ DEFAULT_PREFERENCE ∧
    (∀ info, info ∈ (available_backends BACKEND_REGISTRY w).1 → info.name ≠ c) ∧
    lookupKey c (get_backend BACKEND_REGISTRY w Option.none).2.1 =
      lookupKey c BACKEND_REGISTRY := by
  have hreg : (lookupKey c BACKEND_REGISTRY).isSome = true := by
    have hd : ∀ x ∈ COMMERCIAL_BACKENDS, (lookupKey x BACKEND_REGISTRY).isSome = true := by
      decide
    exact hd c hc
  have hpref : c ∉ DEFAULT_PREFERENCE := by
    have hd : ∀ x ∈ COMMERCIAL_BACKENDS, x ∉ DEFAULT_PREFERENCE := by decide
    exact hd c hc
  refine ⟨hreg, hpref, ?_, ?_⟩
  · intro info hmem hnc
    have hin := available_backends_loop_names w DEFAULT_PREFERENCE BACKEND_REGISTRY
      (regGood_registry w) info hmem
    rw [hnc] at hin
    exact hpref hin
  · cases hp : preferred_available w BACKEND_REGISTRY DEFAULT_PREFERENCE with
    | none =>
      obtain ⟨reg', h1, h2⟩ := auto_select_loop_none w DEFAULT_PREFERENCE BACKEND_REGISTRY
        (regGood_registry w) hp
      show lookupKey c (auto_select_loop DEFAULT_PREFERENCE BACKEND_REGISTRY w).2.1 = _
      rw [h1]
      exact h2 c hpref
    | some m =>
      obtain ⟨info, _, _, _, _, h5⟩ := auto_select_loop_hit w DEFAULT_PREFERENCE
        BACKEND_REGISTRY m (regGood_registry w) hp
      show lookupKey c (auto_select_loop DEFAULT_PREFERENCE BACKEND_REGISTRY w).2.1 = _
      exact h5 c hpref

/-- C10 (witness): anthropic, installed and available, is still left
untouched by auto-selection. -/
theorem commercial_backends_hidden_witness :
    (anthropicInfo.is_available wCommercialOnly).1 = true ∧
    lookupKey "anthropic" (get_backend BACKEND_REGISTRY wCommercialOnly Option.none).2.1 =
      lookupKey "anthropic" BACKEND_REGISTRY := by
  refine ⟨by decide, ?_⟩
  exact (commercial_backends_hidden wCommercialOnly "anthropic" (by decide)).2.2.2

end Pdfsmith
